import Mathlib

/-!
Verification of the brightdata-python-sdk asynchronous job workflow engine
(trigger / poll / fetch / normalize) and the surrounding service layer,
as a shallow embedding in Lean 4.

Time is modelled as a single UTC clock measured in whole seconds (`Nat`);
every `datetime.now(timezone.utc)` call in the source reads this clock, and
durations of network round trips are supplied by the environment as
non-negative values, so the clock is non-decreasing along program order.

The provider (Dataset API Client + network) is modelled by an `Env` record:
the outcome of the trigger call, the status returned by the k-th
`get_status` call, and the outcome of the `fetch_result` call.  The workflow
functions additionally return the list of `get_status` / `fetch_result`
calls they issued, so that temporal claims (no polling after a terminal
observation, no polling at all after a trigger failure) can be stated.
-/

/-- Python values as they occur in payloads and fetched data: strings,
integers, lists, string-keyed dictionaries, and `None`. -/
inductive PyData where
  | pstr : String → PyData
  | pnum : Int → PyData
  | plist : List PyData → PyData
  | pdict : List (String × PyData) → PyData
  | pnone : PyData

/-- Python truthiness of a `PyData` value: empty strings, zero, empty
lists, empty dicts and `None` are falsy, everything else is truthy. -/
def pyTruthy : PyData → Bool
  | .pstr s => !(s == "")
  | .pnum n => !(n == 0)
  | .plist l => !l.isEmpty
  | .pdict l => !l.isEmpty
  | .pnone => false

/-- Truthiness of the optional `data` field of a result record
(`None` is falsy, otherwise Python truthiness of the value). -/
def dataTruthy : Option PyData → Bool
  | none => false
  | some d => pyTruthy d

/-- Modelled from the spec: the `ScrapeResult` record (`brightdata/models.py`
is not in the source tree).  Fields follow §3 of the spec and the keyword
arguments used to construct `ScrapeResult` in
`src/brightdata/scrapers/workflow.py`: `success`, `url`, `status`, `data`,
`error`, `platform`, `method`, and the three UTC timestamps
`trigger_sent_at`, `snapshot_id_received_at`, `data_fetched_at`
(absent timestamps are `none`). -/
structure ScrapeResult where
  success : Bool
  url : String := ""
  status : String
  data : Option PyData := none
  error : Option String := none
  platform : Option String := none
  method : String := "web_scraper"
  trigger_sent_at : Nat
  snapshot_id_received_at : Option Nat := none
  data_fetched_at : Option Nat := none

/-- One provider call issued by the poller: the k-th status query, or the
result fetch.  Trigger is not recorded here because the trace is used to
show that after certain observations no *polling* calls happen at all. -/
inductive Call where
  | getStatus : Nat → Call
  | fetchResult : Call
deriving DecidableEq, Repr

/-- The provider environment for one workflow execution: outcome of the
trigger call (`Except` = APIError with message vs. returned snapshot id,
where the empty string models a falsy/absent id), the duration of the
trigger round trip, the status string answered to the k-th `get_status`
call, and the outcome and duration of `fetch_result`. -/
structure Env where
  triggerResult : Except String String
  triggerDur : Nat := 0
  statusAt : Nat → String
  fetchResult : Except String PyData
  fetchDur : Nat := 0

/-- Modelled from the spec: the timeout result record of the poller
(§4.2 step 3, §7 Timeout): a first-class failure outcome with
status `timeout`, produced at clock value `now`. -/
def timeoutResult (plat : Option String) (ts snap now : Nat) : ScrapeResult :=
  { success := false, status := "timeout",
    error := some "Polling timed out before the snapshot became ready",
    platform := plat, trigger_sent_at := ts,
    snapshot_id_received_at := some snap,
    data_fetched_at := some now }

/-- Modelled from the spec: the success result record of the poller
(§4.2 step 2, `ready` branch): fetched data attached, fetch timestamp
recorded. -/
def readyResult (plat : Option String) (ts snap : Nat) (d : PyData)
    (t : Nat) : ScrapeResult :=
  { success := true, status := "ready", data := some d,
    platform := plat, trigger_sent_at := ts,
    snapshot_id_received_at := some snap,
    data_fetched_at := some t }

/-- Modelled from the spec: the failure record produced when the fetch
call itself raises an API error (§7: client errors are converted into a
uniform failure result record). -/
def fetchErrorResult (plat : Option String) (ts snap : Nat) (e : String)
    (t : Nat) : ScrapeResult :=
  { success := false, status := "error",
    error := some ("Fetch failed: " ++ e),
    platform := plat, trigger_sent_at := ts,
    snapshot_id_received_at := some snap,
    data_fetched_at := some t }

/-- Modelled from the spec: the failure record produced on a
provider-reported `failed` status (§4.2 step 2, §7 Provider-reported
failure): `success=false` with a descriptive error. -/
def failedResult (plat : Option String) (ts snap now : Nat) : ScrapeResult :=
  { success := false, status := "error",
    error := some "Snapshot processing failed",
    platform := plat, trigger_sent_at := ts,
    snapshot_id_received_at := some snap,
    data_fetched_at := some now }

/-- Modelled from the spec: the poll loop body of `poll_until_ready`
(`brightdata/utils/polling.py` is not in the source tree; §4.2 of the
spec gives the algorithm).  Arguments after the environment and static
metadata: the poll interval, the absolute deadline
(`snapshot_id_received_at + poll_timeout`, per §5 the timeout bounds the
wait since the snapshot id was received), then fuel, the index of the next
status call, and the current clock.  Each iteration: if the deadline has
been reached return a `timeout` result; otherwise query status; `ready`
fetches and returns a success result (or a failure result if the fetch
itself fails, per §7 all client errors are converted to failure records);
`failed` returns a failure result immediately; anything else sleeps one
interval and repeats.  Every terminal result records the time it was
produced in `data_fetched_at` (§4.2: the success path records the fetch
timestamp, the timeout path carries elapsed-time metadata).  Fuel
exhaustion (unreachable when the interval is positive and the fuel is
`poll_timeout + 1`) also yields the timeout result. -/
def pollLoop (env : Env) (platform : Option String)
    (trigger_sent_at snapshot_id_received_at : Nat)
    (poll_interval deadline : Nat) :
    Nat → Nat → Nat → ScrapeResult × List Call
  | 0, _, now =>
    (timeoutResult platform trigger_sent_at snapshot_id_received_at now, [])
  | fuel + 1, k, now =>
    if now ≥ deadline then
      (timeoutResult platform trigger_sent_at snapshot_id_received_at now, [])
    else
      if env.statusAt k = "ready" then
        match env.fetchResult with
        | .ok d =>
          (readyResult platform trigger_sent_at snapshot_id_received_at d
            (now + env.fetchDur),
           [Call.getStatus k, Call.fetchResult])
        | .error e =>
          (fetchErrorResult platform trigger_sent_at snapshot_id_received_at e
            (now + env.fetchDur),
           [Call.getStatus k, Call.fetchResult])
      else if env.statusAt k = "failed" then
        (failedResult platform trigger_sent_at snapshot_id_received_at now,
         [Call.getStatus k])
      else
        ((pollLoop env platform trigger_sent_at snapshot_id_received_at
            poll_interval deadline fuel (k + 1) (now + poll_interval)).1,
         Call.getStatus k ::
          (pollLoop env platform trigger_sent_at snapshot_id_received_at
            poll_interval deadline fuel (k + 1) (now + poll_interval)).2)

/-- Modelled from the spec: `poll_until_ready`
(`brightdata/utils/polling.py` is not in the source tree; §4.2 of the
spec).  Sets the deadline to `snapshot_id_received_at + poll_timeout` and
runs the loop with the first status call at the current clock,
`poll_timeout + 1` fuel (enough for any positive interval). -/
def poll_until_ready (env : Env) (snapshot_id : String)
    (poll_interval poll_timeout : Nat)
    (trigger_sent_at snapshot_id_received_at : Nat)
    (platform : Option String) : ScrapeResult × List Call :=
  let _ := snapshot_id
  pollLoop env platform trigger_sent_at snapshot_id_received_at
    poll_interval (snapshot_id_received_at + poll_timeout)
    (poll_timeout + 1) 0 snapshot_id_received_at

/-- Embedding of `WorkflowExecutor._poll_and_fetch`
(src/src/brightdata/scrapers/workflow.py, lines 114–158): delegate to
`poll_until_ready`, then, if the result is successful, its data truthy and
a normalize function was supplied, replace `data` by the normalized form
(`if result.success and result.data and normalize_func`). -/
def WorkflowExecutor.poll_and_fetch (env : Env) (snapshot_id : String)
    (poll_interval poll_timeout : Nat)
    (trigger_sent_at snapshot_id_received_at : Nat)
    (platform : Option String)
    (normalize_func : Option (PyData → PyData)) : ScrapeResult × List Call :=
  let pr := poll_until_ready env snapshot_id poll_interval poll_timeout
    trigger_sent_at snapshot_id_received_at platform
  match normalize_func with
  | some f =>
    if pr.1.success && dataTruthy pr.1.data then
      ({ pr.1 with data := pr.1.data.map f }, pr.2)
    else pr
  | none => pr

/-- Embedding of `WorkflowExecutor.execute`
(src/src/brightdata/scrapers/workflow.py, lines 44–112).  `t0` is the
clock value at entry (`trigger_sent_at = datetime.now(timezone.utc)`).
An `APIError` from trigger returns an error record whose message starts
with "Trigger failed: "; a falsy (empty) snapshot id returns an error
record with the fixed no-snapshot message; both leave
`snapshot_id_received_at` unset and record `data_fetched_at` at the time
the trigger round trip ended, exactly as the source does.  Otherwise the
snapshot-received timestamp is taken and the poller is delegated to.
`payload` and `dataset_id` are forwarded to the trigger call whose outcome
the environment fixes. -/
def WorkflowExecutor.execute (env : Env) (platform_name : Option String)
    (payload : List (List (String × PyData))) (dataset_id : String)
    (poll_interval poll_timeout : Nat)
    (normalize_func : Option (PyData → PyData)) (t0 : Nat) :
    ScrapeResult × List Call :=
  let _ := payload
  let _ := dataset_id
  let trigger_sent_at := t0
  match env.triggerResult with
  | .error e =>
    ({ success := false, url := "", status := "error",
       error := some ("Trigger failed: " ++ e),
       platform := platform_name,
       trigger_sent_at := trigger_sent_at,
       data_fetched_at := some (t0 + env.triggerDur) }, [])
  | .ok snapshot_id =>
    if snapshot_id = "" then
      ({ success := false, url := "", status := "error",
         error := some "Failed to trigger scrape - no snapshot_id returned",
         platform := platform_name,
         trigger_sent_at := trigger_sent_at,
         data_fetched_at := some (t0 + env.triggerDur) }, [])
    else
      let snapshot_id_received_at := t0 + env.triggerDur
      WorkflowExecutor.poll_and_fetch env snapshot_id poll_interval
        poll_timeout trigger_sent_at snapshot_id_received_at platform_name
        normalize_func

/-- Per-platform scraper configuration (class attributes of
`BaseWebScraper` subclasses in src/src/brightdata/scrapers/base.py:
`DATASET_ID`, `PLATFORM_NAME`, `MIN_POLL_TIMEOUT`, plus the
`normalize_result` method the subclass may override). -/
structure ScraperConfig where
  DATASET_ID : String
  PLATFORM_NAME : String
  MIN_POLL_TIMEOUT : Nat := 180
  normalize_result : PyData → PyData

/-- Embedding of the base `BaseWebScraper.normalize_result`
(src/src/brightdata/scrapers/base.py, line 183): returns data as-is. -/
def BaseWebScraper.normalize_result : PyData → PyData := fun data => data

/-- The `urls` argument of `scrape_async`: a single URL string or a list
of URLs (`Union[str, List[str]]`). -/
inductive Urls where
  | single : String → Urls
  | list : List String → Urls

/-- Embedding of `timeout = poll_timeout or self.MIN_POLL_TIMEOUT`
(src/src/brightdata/scrapers/base.py, line 143): `None` and the falsy
value `0` both fall back to the platform minimum. -/
def effectiveTimeout (poll_timeout : Option Nat) (min_poll_timeout : Nat) : Nat :=
  match poll_timeout with
  | none => min_poll_timeout
  | some t => if t = 0 then min_poll_timeout else t

/-- Embedding of `BaseWebScraper._build_scrape_payload`
(src/src/brightdata/scrapers/base.py, line 210): one
single-key url dict per input URL. -/
def BaseWebScraper.build_scrape_payload (urls : List String) :
    List (List (String × PyData)) :=
  urls.map (fun u => [("url", PyData.pstr u)])

/-- Embedding of `BaseWebScraper.scrape_async`
(src/src/brightdata/scrapers/base.py, lines 95–160).  `validUrl` stands
for the URL validator in `brightdata/utils/validation.py` (out of the
spec's core scope); an invalid URL raises a `ValidationError`, modelled
as the `Except.error` branch.  Otherwise the payload is built, the
workflow executed with `normalize_func = self.normalize_result`, and —
exactly when the input was a single string and the result data is a
one-element list — the data is unwrapped to its sole element and the
result url set to the input URL. -/
def BaseWebScraper.scrape_async (cfg : ScraperConfig)
    (validUrl : String → Bool) (env : Env) (urls : Urls)
    (poll_interval : Nat) (poll_timeout : Option Nat) (t0 : Nat) :
    Except String (ScrapeResult × List Call) :=
  let url_list := match urls with
    | .single u => [u]
    | .list l => l
  if url_list.all validUrl then
    let payload := BaseWebScraper.build_scrape_payload url_list
    let timeout := effectiveTimeout poll_timeout cfg.MIN_POLL_TIMEOUT
    let platform_name :=
      if cfg.PLATFORM_NAME = "" then none else some cfg.PLATFORM_NAME
    let r := WorkflowExecutor.execute env platform_name payload
      cfg.DATASET_ID poll_interval timeout (some cfg.normalize_result) t0
    match urls, r.1.data with
    | .single u, some (PyData.plist [d]) =>
      .ok ({ r.1 with url := u, data := some d }, r.2)
    | _, _ => .ok r
  else
    .error "ValidationError: invalid URL"

/-- Exceptions that `BrightDataClient.list_zones` can raise, as caught by
`test_connection` (src/brightdata-sdk/src/brightdata/client.py,
lines 224–230): an authentication error, an API error with a message, or
any other exception. -/
inductive ConnExc where
  | authError : ConnExc
  | apiError : String → ConnExc
  | otherExc : ConnExc

/-- The outcome of the `list_zones` call: a zone list, or a raised
exception. -/
inductive ZonesOutcome where
  | ok : List PyData → ZonesOutcome
  | exc : ConnExc → ZonesOutcome

/-- Embedding of `BrightDataClient.test_connection`
(src/brightdata-sdk/src/brightdata/client.py, lines 208–230): `True`
when `list_zones` succeeds; `AuthenticationError`, `APIError` and any
other exception all yield `False` instead of propagating. -/
def BrightDataClient.test_connection (o : ZonesOutcome) : Bool :=
  match o with
  | .ok _ => true
  | .exc _ => false

/-- Modelled from the spec: the `SearchResult` record
(`brightdata/models.py` is not in the source tree); fields follow the
keyword arguments used in
src/brightdata-sdk/src/brightdata/services/search_engines/google.py and
linkedin.py. -/
structure SearchResult where
  success : Bool
  query : List (String × Option String)
  data : List PyData
  search_engine : Option String := none
  platform : Option String := none
  country : Option String := none
  request_sent_at : Nat
  data_received_at : Nat

/-- Embedding of `GoogleSearch.query`
(src/brightdata-sdk/src/brightdata/services/search_engines/google.py,
lines 17–48).  The body constructs a `SearchResult` directly; the second
component counts the HTTP requests issued through the engine, of which
the body makes none. -/
def GoogleSearch.query (q country language : String) (num_results : Nat)
    (now : Nat) : SearchResult × Nat :=
  let _ := num_results
  ({ success := true,
     query := [("q", some q), ("country", some country),
               ("language", some language)],
     data := [],
     search_engine := some "google",
     country := some country,
     request_sent_at := now,
     data_received_at := now }, 0)

/-- Embedding of `LinkedInSearch.jobs`
(src/brightdata-sdk/src/brightdata/services/search_engines/linkedin.py,
lines 17–44); no HTTP request is issued. -/
def LinkedInSearch.jobs (q : String) (location : Option String)
    (now : Nat) : SearchResult × Nat :=
  ({ success := true,
     query := [("q", some q), ("location", location)],
     data := [],
     search_engine := none,
     platform := some "linkedin",
     request_sent_at := now,
     data_received_at := now }, 0)

/-- Embedding of `LinkedInSearch.profiles`
(src/brightdata-sdk/src/brightdata/services/search_engines/linkedin.py,
lines 46–71); no HTTP request is issued. -/
def LinkedInSearch.profiles (q : String) (now : Nat) : SearchResult × Nat :=
  ({ success := true,
     query := [("q", some q)],
     data := [],
     search_engine := none,
     platform := some "linkedin",
     request_sent_at := now,
     data_received_at := now }, 0)

/-- Modelled from the spec: the `CrawlResult` record
(`brightdata/models.py` is not in the source tree); fields follow the
keyword arguments used in
src/brightdata-sdk/src/brightdata/services/crawler.py. -/
structure CrawlResult where
  success : Bool
  domain : String
  pages : List PyData
  total_pages : Nat
  depth : Nat
  filter_pattern : Option String := none
  exclude_pattern : Option String := none
  crawl_started_at : Nat
  crawl_completed_at : Nat
  request_sent_at : Nat
  data_received_at : Nat

/-- Embedding of `CrawlerService.discover`
(src/brightdata-sdk/src/brightdata/services/crawler.py, lines 27–69).
The body constructs a `CrawlResult` directly; the engine held by the
service is never used, so the HTTP request count is zero. -/
def CrawlerService.discover (domain : String) (max_depth max_pages : Nat)
    (filter_pattern exclude_pattern : Option String) (now : Nat) :
    CrawlResult × Nat :=
  let _ := max_pages
  ({ success := true,
     domain := domain,
     pages := [],
     total_pages := 0,
     depth := max_depth,
     filter_pattern := filter_pattern,
     exclude_pattern := exclude_pattern,
     crawl_started_at := now,
     crawl_completed_at := now,
     request_sent_at := now,
     data_received_at := now }, 0)

/-- A concrete environment whose trigger call raises an API error
(HTTP 500), as in the spec's trigger-failure scenario. -/
def envTriggerError : Env :=
  { triggerResult := .error "HTTP 500: internal server error",
    statusAt := fun _ => "running",
    fetchResult := .ok PyData.pnone }

/-- A concrete environment whose trigger succeeds but the snapshot never
becomes ready: every status call answers `running`. -/
def envAllRunning : Env :=
  { triggerResult := .ok "snap-1",
    statusAt := fun _ => "running",
    fetchResult := .ok PyData.pnone }

/-- A concrete environment whose first status call reports the terminal
`failed` state. -/
def envFailed : Env :=
  { triggerResult := .ok "snap-1",
    statusAt := fun _ => "failed",
    fetchResult := .ok PyData.pnone }

/-- A concrete environment that is immediately ready with a one-element
fetched list, matching the spec's single-URL success scenario. -/
def envReadyOne : Env :=
  { triggerResult := .ok "snap-1",
    statusAt := fun _ => "ready",
    fetchResult := .ok (PyData.plist [PyData.pdict [("title", PyData.pstr "x")]]) }

/-- A concrete environment that is immediately ready with a two-element
fetched list (a batch result). -/
def envReadyTwo : Env :=
  { triggerResult := .ok "snap-1",
    statusAt := fun _ => "ready",
    fetchResult := .ok (PyData.plist [PyData.pstr "a", PyData.pstr "b"]) }

/-- A concrete environment that is immediately ready but whose fetched
data is the empty list (a successful collection with zero records). -/
def envEmptyData : Env :=
  { triggerResult := .ok "snap-1",
    statusAt := fun _ => "ready",
    fetchResult := .ok (PyData.plist []) }

/-- Unfolding equation of the poll loop: fuel exhausted. -/
theorem pollLoop_zero (env : Env) (plat : Option String)
    (ts snap pi dl k now : Nat) :
    pollLoop env plat ts snap pi dl 0 k now =
      (timeoutResult plat ts snap now, []) := rfl

/-- Unfolding equation of the poll loop: the deadline has been reached. -/
theorem pollLoop_deadline (env : Env) (plat : Option String)
    (ts snap pi dl n k now : Nat) (hd : now ≥ dl) :
    pollLoop env plat ts snap pi dl (n + 1) k now =
      (timeoutResult plat ts snap now, []) := by
  simp [pollLoop, if_pos hd]

/-- Unfolding equation of the poll loop: status `ready`, fetch succeeds. -/
theorem pollLoop_ready_ok (env : Env) (plat : Option String)
    (ts snap pi dl n k now : Nat) (d : PyData) (hd : ¬ now ≥ dl)
    (hr : env.statusAt k = "ready") (hf : env.fetchResult = .ok d) :
    pollLoop env plat ts snap pi dl (n + 1) k now =
      (readyResult plat ts snap d (now + env.fetchDur),
       [Call.getStatus k, Call.fetchResult]) := by
  simp [pollLoop, if_neg hd, hr, hf]

/-- Unfolding equation of the poll loop: status `ready`, fetch raises an
API error. -/
theorem pollLoop_ready_err (env : Env) (plat : Option String)
    (ts snap pi dl n k now : Nat) (e : String) (hd : ¬ now ≥ dl)
    (hr : env.statusAt k = "ready") (hf : env.fetchResult = .error e) :
    pollLoop env plat ts snap pi dl (n + 1) k now =
      (fetchErrorResult plat ts snap e (now + env.fetchDur),
       [Call.getStatus k, Call.fetchResult]) := by
  simp [pollLoop, if_neg hd, hr, hf]

/-- Unfolding equation of the poll loop: provider-reported `failed`. -/
theorem pollLoop_failed_eq (env : Env) (plat : Option String)
    (ts snap pi dl n k now : Nat) (hd : ¬ now ≥ dl)
    (_hr : ¬ env.statusAt k = "ready") (hfl : env.statusAt k = "failed") :
    pollLoop env plat ts snap pi dl (n + 1) k now =
      (failedResult plat ts snap now, [Call.getStatus k]) := by
  simp [pollLoop, if_neg hd, hfl]

/-- Unfolding equation of the poll loop: non-terminal status, sleep one
interval and continue. -/
theorem pollLoop_step (env : Env) (plat : Option String)
    (ts snap pi dl n k now : Nat) (hd : ¬ now ≥ dl)
    (hr : ¬ env.statusAt k = "ready") (hfl : ¬ env.statusAt k = "failed") :
    pollLoop env plat ts snap pi dl (n + 1) k now =
      ((pollLoop env plat ts snap pi dl n (k + 1) (now + pi)).1,
       Call.getStatus k ::
        (pollLoop env plat ts snap pi dl n (k + 1) (now + pi)).2) := by
  simp [pollLoop, if_neg hd, if_neg hr, if_neg hfl]

/-- When every status call that happens before the deadline answers a
non-terminal status, the poll loop ends with a `timeout` failure record. -/
theorem pollLoop_timeout (env : Env) (plat : Option String)
    (ts snap pi dl : Nat) :
    ∀ (fuel k now : Nat),
      (∀ d : Nat, now + d * pi < dl →
        env.statusAt (k + d) ≠ "ready" ∧ env.statusAt (k + d) ≠ "failed") →
      (pollLoop env plat ts snap pi dl fuel k now).1.status = "timeout" ∧
      (pollLoop env plat ts snap pi dl fuel k now).1.success = false := by
  intro fuel
  induction fuel with
  | zero => intro k now _; exact ⟨rfl, rfl⟩
  | succ n ih =>
    intro k now h
    by_cases hd : now ≥ dl
    · rw [pollLoop_deadline env plat ts snap pi dl n k now hd]
      exact ⟨rfl, rfl⟩
    · have hlt : now + 0 * pi < dl := by
        simpa using lt_of_not_le hd
      have h0 := h 0 hlt
      rw [Nat.add_zero] at h0
      rw [pollLoop_step env plat ts snap pi dl n k now hd h0.1 h0.2]
      apply ih (k + 1) (now + pi)
      intro d hdlt
      have hsum : now + (d + 1) * pi < dl := by
        rw [Nat.succ_mul]; omega
      have := h (d + 1) hsum
      have hidx : k + (d + 1) = k + 1 + d := by omega
      rw [hidx] at this
      exact this

/-- Structural invariant of the poll loop: whatever the outcome, the
result carries the given trigger timestamp, the snapshot-received
timestamp, a fetch/termination timestamp no earlier than the current
clock, and is terminal: either successful with data attached, or failed
with an error message attached. -/
theorem pollLoop_inv (env : Env) (plat : Option String)
    (ts snap pi dl : Nat) :
    ∀ (fuel k now : Nat), snap ≤ now →
      (pollLoop env plat ts snap pi dl fuel k now).1.trigger_sent_at = ts ∧
      (pollLoop env plat ts snap pi dl fuel k now).1.snapshot_id_received_at
        = some snap ∧
      (∃ f, (pollLoop env plat ts snap pi dl fuel k now).1.data_fetched_at
        = some f ∧ snap ≤ f) ∧
      (((pollLoop env plat ts snap pi dl fuel k now).1.success = true ∧
        (pollLoop env plat ts snap pi dl fuel k now).1.data.isSome = true) ∨
       ((pollLoop env plat ts snap pi dl fuel k now).1.success = false ∧
        (pollLoop env plat ts snap pi dl fuel k now).1.error.isSome = true)) := by
  intro fuel
  induction fuel with
  | zero =>
    intro k now hsn
    exact ⟨rfl, rfl, ⟨now, rfl, hsn⟩, Or.inr ⟨rfl, rfl⟩⟩
  | succ n ih =>
    intro k now hsn
    by_cases hd : now ≥ dl
    · rw [pollLoop_deadline env plat ts snap pi dl n k now hd]
      exact ⟨rfl, rfl, ⟨now, rfl, hsn⟩, Or.inr ⟨rfl, rfl⟩⟩
    · by_cases hr : env.statusAt k = "ready"
      · cases hf : env.fetchResult with
        | ok d =>
          rw [pollLoop_ready_ok env plat ts snap pi dl n k now d hd hr hf]
          exact ⟨rfl, rfl, ⟨now + env.fetchDur, rfl, by omega⟩,
            Or.inl ⟨rfl, rfl⟩⟩
        | error e =>
          rw [pollLoop_ready_err env plat ts snap pi dl n k now e hd hr hf]
          exact ⟨rfl, rfl, ⟨now + env.fetchDur, rfl, by omega⟩,
            Or.inr ⟨rfl, rfl⟩⟩
      · by_cases hfl : env.statusAt k = "failed"
        · rw [pollLoop_failed_eq env plat ts snap pi dl n k now hd hr hfl]
          exact ⟨rfl, rfl, ⟨now, rfl, hsn⟩, Or.inr ⟨rfl, rfl⟩⟩
        · rw [pollLoop_step env plat ts snap pi dl n k now hd hr hfl]
          exact ih (k + 1) (now + pi) (by omega)

/-- If the poll loop's call trace contains a status call whose answer was
`failed`, then that call is the last call of the trace (no further status
call and no fetch call followed it) and the loop's result is a failure. -/
theorem pollLoop_failed_stops (env : Env) (plat : Option String)
    (ts snap pi dl : Nat) :
    ∀ (fuel k now j : Nat),
      Call.getStatus j ∈ (pollLoop env plat ts snap pi dl fuel k now).2 →
      env.statusAt j = "failed" →
      (pollLoop env plat ts snap pi dl fuel k now).1.success = false ∧
      Call.fetchResult ∉ (pollLoop env plat ts snap pi dl fuel k now).2 ∧
      ∃ pre, (pollLoop env plat ts snap pi dl fuel k now).2 =
        pre ++ [Call.getStatus j] := by
  intro fuel
  induction fuel with
  | zero =>
    intro k now j hmem _
    rw [pollLoop_zero] at hmem
    simp at hmem
  | succ n ih =>
    intro k now j hmem hj
    by_cases hd : now ≥ dl
    · rw [pollLoop_deadline env plat ts snap pi dl n k now hd] at hmem
      simp at hmem
    · by_cases hr : env.statusAt k = "ready"
      · cases hf : env.fetchResult with
        | ok d =>
          rw [pollLoop_ready_ok env plat ts snap pi dl n k now d hd hr hf]
            at hmem
          simp at hmem
          rw [hmem] at hj
          rw [hj] at hr
          exact absurd hr (by decide)
        | error e =>
          rw [pollLoop_ready_err env plat ts snap pi dl n k now e hd hr hf]
            at hmem
          simp at hmem
          rw [hmem] at hj
          rw [hj] at hr
          exact absurd hr (by decide)
      · by_cases hfl : env.statusAt k = "failed"
        · rw [pollLoop_failed_eq env plat ts snap pi dl n k now hd hr hfl]
          rw [pollLoop_failed_eq env plat ts snap pi dl n k now hd hr hfl]
            at hmem
          simp at hmem
          refine ⟨rfl, by simp, [], ?_⟩
          rw [hmem]
          simp
        · rw [pollLoop_step env plat ts snap pi dl n k now hd hr hfl]
          rw [pollLoop_step env plat ts snap pi dl n k now hd hr hfl] at hmem
          simp only [List.mem_cons] at hmem
          rcases hmem with hhd | htl
          · have hjk : j = k := by
              cases hhd; rfl
            rw [hjk] at hj
            exact absurd hj hfl
          · obtain ⟨hsucc, hnofetch, pre, hpre⟩ :=
              ih (k + 1) (now + pi) j htl hj
            refine ⟨hsucc, ?_, Call.getStatus k :: pre, ?_⟩
            · simp only [List.mem_cons]
              rintro (hc | hc)
              · exact Call.noConfusion hc
              · exact hnofetch hc
            · rw [List.cons_append, hpre]

/-- Characterization of the success path: if the d-th status call (counted
from the loop's starting index) answers `ready`, every earlier one
answered a non-terminal status, that call happens before the deadline and
there is enough fuel, then the loop returns the result of fetching, with
the fetch timestamp `d` intervals after the starting clock. -/
theorem pollLoop_reaches_ready (env : Env) (plat : Option String)
    (ts snap pi dl : Nat) :
    ∀ (d fuel k now : Nat), d < fuel →
      now + d * pi < dl →
      env.statusAt (k + d) = "ready" →
      (∀ e, e < d → env.statusAt (k + e) ≠ "ready" ∧
        env.statusAt (k + e) ≠ "failed") →
      (pollLoop env plat ts snap pi dl fuel k now).1 =
        (match env.fetchResult with
         | .ok dta =>
            readyResult plat ts snap dta (now + d * pi + env.fetchDur)
         | .error e =>
            fetchErrorResult plat ts snap e (now + d * pi + env.fetchDur)) := by
  intro d
  induction d with
  | zero =>
    intro fuel k now hfuel htime hready _
    obtain ⟨n, rfl⟩ : ∃ n, fuel = n + 1 := by
      cases fuel with
      | zero => omega
      | succ n => exact ⟨n, rfl⟩
    have hd : ¬ now ≥ dl := by
      simp only [Nat.zero_mul, Nat.add_zero] at htime
      omega
    rw [Nat.add_zero] at hready
    cases hf : env.fetchResult with
    | ok dta =>
      rw [pollLoop_ready_ok env plat ts snap pi dl n k now dta hd hready hf]
      simp [Nat.zero_mul]
    | error e =>
      rw [pollLoop_ready_err env plat ts snap pi dl n k now e hd hready hf]
      simp [Nat.zero_mul]
  | succ m ih =>
    intro fuel k now hfuel htime hready hbefore
    obtain ⟨n, rfl⟩ : ∃ n, fuel = n + 1 := by
      cases fuel with
      | zero => omega
      | succ n => exact ⟨n, rfl⟩
    have hd : ¬ now ≥ dl := by
      have : now ≤ now + (m + 1) * pi := Nat.le_add_right _ _
      omega
    have h0 := hbefore 0 (Nat.succ_pos m)
    rw [Nat.add_zero] at h0
    rw [pollLoop_step env plat ts snap pi dl n k now hd h0.1 h0.2]
    have harith : now + pi + m * pi = now + (m + 1) * pi := by
      rw [Nat.succ_mul]; omega
    have := ih n (k + 1) (now + pi) (by omega)
      (by rw [harith]; exact htime)
      (by have : k + 1 + m = k + (m + 1) := by omega
          rw [this]; exact hready)
      (by intro e he
          have : k + 1 + e = k + (e + 1) := by omega
          rw [this]; exact hbefore (e + 1) (by omega))
    rw [this, harith]

/-- If the poll loop reports success, the fetch call succeeded and the
result's data is exactly the fetched payload. -/
theorem pollLoop_success_data (env : Env) (plat : Option String)
    (ts snap pi dl : Nat) :
    ∀ (fuel k now : Nat),
      (pollLoop env plat ts snap pi dl fuel k now).1.success = true →
      ∃ dta, env.fetchResult = .ok dta ∧
        (pollLoop env plat ts snap pi dl fuel k now).1.data = some dta := by
  intro fuel
  induction fuel with
  | zero =>
    intro k now hs
    rw [pollLoop_zero] at hs
    simp [timeoutResult] at hs
  | succ n ih =>
    intro k now hs
    by_cases hd : now ≥ dl
    · rw [pollLoop_deadline env plat ts snap pi dl n k now hd] at hs
      simp [timeoutResult] at hs
    · by_cases hr : env.statusAt k = "ready"
      · cases hf : env.fetchResult with
        | ok dta =>
          rw [pollLoop_ready_ok env plat ts snap pi dl n k now dta hd hr hf]
          exact ⟨dta, rfl, rfl⟩
        | error e =>
          rw [pollLoop_ready_err env plat ts snap pi dl n k now e hd hr hf]
            at hs
          simp [fetchErrorResult] at hs
      · by_cases hfl : env.statusAt k = "failed"
        · rw [pollLoop_failed_eq env plat ts snap pi dl n k now hd hr hfl]
            at hs
          simp [failedResult] at hs
        · rw [pollLoop_step env plat ts snap pi dl n k now hd hr hfl] at hs ⊢
          exact ih (k + 1) (now + pi) hs

/-- Frame property of the normalization step in
`WorkflowExecutor._poll_and_fetch`: whatever the poller returned and
whatever normalize function (if any) was supplied, only the `data` field
can differ from the poller's result — `success`, `status`, `error`,
`url`, `platform`, `method`, all three timestamps, the presence of data,
and the call trace are unchanged. -/
theorem poll_and_fetch_frame (env : Env) (sid : String)
    (pi pt ts snap : Nat) (plat : Option String)
    (nf : Option (PyData → PyData)) :
    (WorkflowExecutor.poll_and_fetch env sid pi pt ts snap plat nf).1.success
      = (poll_until_ready env sid pi pt ts snap plat).1.success ∧
    (WorkflowExecutor.poll_and_fetch env sid pi pt ts snap plat nf).1.status
      = (poll_until_ready env sid pi pt ts snap plat).1.status ∧
    (WorkflowExecutor.poll_and_fetch env sid pi pt ts snap plat nf).1.error
      = (poll_until_ready env sid pi pt ts snap plat).1.error ∧
    (WorkflowExecutor.poll_and_fetch env sid pi pt ts snap plat nf).1.url
      = (poll_until_ready env sid pi pt ts snap plat).1.url ∧
    (WorkflowExecutor.poll_and_fetch env sid pi pt ts snap plat nf).1.platform
      = (poll_until_ready env sid pi pt ts snap plat).1.platform ∧
    (WorkflowExecutor.poll_and_fetch env sid pi pt ts snap plat nf).1.method
      = (poll_until_ready env sid pi pt ts snap plat).1.method ∧
    (WorkflowExecutor.poll_and_fetch env sid pi pt ts snap plat
        nf).1.trigger_sent_at
      = (poll_until_ready env sid pi pt ts snap plat).1.trigger_sent_at ∧
    (WorkflowExecutor.poll_and_fetch env sid pi pt ts snap plat
        nf).1.snapshot_id_received_at
      = (poll_until_ready env sid pi pt ts snap
          plat).1.snapshot_id_received_at ∧
    (WorkflowExecutor.poll_and_fetch env sid pi pt ts snap plat
        nf).1.data_fetched_at
      = (poll_until_ready env sid pi pt ts snap plat).1.data_fetched_at ∧
    (WorkflowExecutor.poll_and_fetch env sid pi pt ts snap plat
        nf).1.data.isSome
      = (poll_until_ready env sid pi pt ts snap plat).1.data.isSome ∧
    (WorkflowExecutor.poll_and_fetch env sid pi pt ts snap plat nf).2
      = (poll_until_ready env sid pi pt ts snap plat).2 := by
  unfold WorkflowExecutor.poll_and_fetch
  cases nf with
  | none => exact ⟨rfl, rfl, rfl, rfl, rfl, rfl, rfl, rfl, rfl, rfl, rfl⟩
  | some f =>
    dsimp only
    by_cases hc : ((poll_until_ready env sid pi pt ts snap plat).1.success
        && dataTruthy (poll_until_ready env sid pi pt ts snap plat).1.data)
        = true
    · rw [if_pos hc]
      refine ⟨rfl, rfl, rfl, rfl, rfl, rfl, rfl, rfl, rfl, ?_, rfl⟩
      cases (poll_until_ready env sid pi pt ts snap plat).1.data <;> rfl
    · rw [if_neg hc]
      exact ⟨rfl, rfl, rfl, rfl, rfl, rfl, rfl, rfl, rfl, rfl, rfl⟩

/-- Unfolding equation of `execute`: the trigger call raised an APIError. -/
theorem execute_trigger_error (env : Env) (plat : Option String)
    (payload : List (List (String × PyData))) (did : String)
    (pi pt : Nat) (nf : Option (PyData → PyData)) (t0 : Nat) (e : String)
    (h : env.triggerResult = .error e) :
    WorkflowExecutor.execute env plat payload did pi pt nf t0 =
      ({ success := false, url := "", status := "error",
         error := some ("Trigger failed: " ++ e),
         platform := plat, trigger_sent_at := t0,
         data_fetched_at := some (t0 + env.triggerDur) }, []) := by
  unfold WorkflowExecutor.execute
  rw [h]

/-- Unfolding equation of `execute`: the trigger call returned a falsy
(empty) snapshot id. -/
theorem execute_no_snapshot (env : Env) (plat : Option String)
    (payload : List (List (String × PyData))) (did : String)
    (pi pt : Nat) (nf : Option (PyData → PyData)) (t0 : Nat)
    (h : env.triggerResult = .ok "") :
    WorkflowExecutor.execute env plat payload did pi pt nf t0 =
      ({ success := false, url := "", status := "error",
         error := some "Failed to trigger scrape - no snapshot_id returned",
         platform := plat, trigger_sent_at := t0,
         data_fetched_at := some (t0 + env.triggerDur) }, []) := by
  unfold WorkflowExecutor.execute
  rw [h]
  simp

/-- Unfolding equation of `execute`: the trigger call returned a usable
snapshot id, so the work is delegated to the poll-and-fetch step with
`snapshot_id_received_at = t0 +` the trigger round-trip duration. -/
theorem execute_ok (env : Env) (plat : Option String)
    (payload : List (List (String × PyData))) (did : String)
    (pi pt : Nat) (nf : Option (PyData → PyData)) (t0 : Nat) (sid : String)
    (h : env.triggerResult = .ok sid) (hs : sid ≠ "") :
    WorkflowExecutor.execute env plat payload did pi pt nf t0 =
      WorkflowExecutor.poll_and_fetch env sid pi pt t0
        (t0 + env.triggerDur) plat nf := by
  unfold WorkflowExecutor.execute
  rw [h]
  simp [hs]

/-- Unfolding equation of `poll_until_ready` in terms of the loop. -/
theorem poll_until_ready_eq (env : Env) (sid : String)
    (pi pt ts snap : Nat) (plat : Option String) :
    poll_until_ready env sid pi pt ts snap plat =
      pollLoop env plat ts snap pi (snap + pt) (pt + 1) 0 snap := rfl

/-- When the poller succeeded and the fetched payload is truthy, the
poll-and-fetch step with a supplied normalize function returns that
payload's normalized form as the result's data. -/
theorem poll_and_fetch_normalizes (env : Env) (sid : String)
    (pi pt ts snap : Nat) (plat : Option String) (f : PyData → PyData)
    (dta : PyData)
    (hf : env.fetchResult = .ok dta)
    (hs : (poll_until_ready env sid pi pt ts snap plat).1.success = true)
    (ht : pyTruthy dta = true) :
    (WorkflowExecutor.poll_and_fetch env sid pi pt ts snap plat
      (some f)).1.data = some (f dta) := by
  rw [poll_until_ready_eq] at hs
  obtain ⟨dta2, hf2, hdata⟩ := pollLoop_success_data env plat ts snap pi
    (snap + pt) (pt + 1) 0 snap hs
  have hd : dta2 = dta := by
    rw [hf] at hf2
    exact (Except.ok.inj hf2).symm
  rw [hd] at hdata
  unfold WorkflowExecutor.poll_and_fetch
  dsimp only
  rw [poll_until_ready_eq]
  have hcond : ((pollLoop env plat ts snap pi (snap + pt) (pt + 1) 0
        snap).1.success &&
      dataTruthy (pollLoop env plat ts snap pi (snap + pt) (pt + 1) 0
        snap).1.data) = true := by
    rw [hs, hdata]
    simp [dataTruthy, ht]
  rw [if_pos hcond]
  dsimp only
  rw [hdata]
  rfl

/-- When the poller succeeded but the fetched payload is falsy (for
Python truthiness, e.g. an empty list), the normalization step is
skipped and the result's data is the raw payload unchanged. -/
theorem poll_and_fetch_skips_falsy (env : Env) (sid : String)
    (pi pt ts snap : Nat) (plat : Option String) (f : PyData → PyData)
    (dta : PyData)
    (hf : env.fetchResult = .ok dta)
    (hs : (poll_until_ready env sid pi pt ts snap plat).1.success = true)
    (ht : pyTruthy dta = false) :
    (WorkflowExecutor.poll_and_fetch env sid pi pt ts snap plat
      (some f)).1.data = some dta := by
  rw [poll_until_ready_eq] at hs
  obtain ⟨dta2, hf2, hdata⟩ := pollLoop_success_data env plat ts snap pi
    (snap + pt) (pt + 1) 0 snap hs
  have hd : dta2 = dta := by
    rw [hf] at hf2
    exact (Except.ok.inj hf2).symm
  rw [hd] at hdata
  unfold WorkflowExecutor.poll_and_fetch
  dsimp only
  rw [poll_until_ready_eq]
  have hcond : ¬ (((pollLoop env plat ts snap pi (snap + pt) (pt + 1) 0
        snap).1.success &&
      dataTruthy (pollLoop env plat ts snap pi (snap + pt) (pt + 1) 0
        snap).1.data) = true) := by
    rw [hs, hdata]
    simp [dataTruthy, ht]
  rw [if_neg hcond]
  exact hdata

/-- C1: for every payload and dataset id, if the trigger operation raises
an API error or returns no usable snapshot identifier,
`WorkflowExecutor.execute` returns immediately — issuing no `get_status`
and no `fetch_result` call — with `success=false` and `status="error"`,
and in the API-error case an error message containing "Trigger failed". -/
theorem C1_trigger_failure_fast_fail (env : Env) (plat : Option String)
    (payload : List (List (String × PyData))) (did : String)
    (pi pt : Nat) (nf : Option (PyData → PyData)) (t0 : Nat)
    (h : (∃ e, env.triggerResult = .error e) ∨ env.triggerResult = .ok "") :
    (WorkflowExecutor.execute env plat payload did pi pt nf t0).1.success
      = false ∧
    (WorkflowExecutor.execute env plat payload did pi pt nf t0).1.status
      = "error" ∧
    (WorkflowExecutor.execute env plat payload did pi pt nf t0).2 = [] ∧
    (∀ e, env.triggerResult = .error e →
      ∃ s, (WorkflowExecutor.execute env plat payload did pi pt nf t0).1.error
        = some ("Trigger failed: " ++ s)) := by
  rcases h with ⟨e, he⟩ | he
  · rw [execute_trigger_error env plat payload did pi pt nf t0 e he]
    refine ⟨rfl, rfl, rfl, ?_⟩
    intro e2 _
    exact ⟨e, rfl⟩
  · rw [execute_no_snapshot env plat payload did pi pt nf t0 he]
    refine ⟨rfl, rfl, rfl, ?_⟩
    intro e2 he2
    rw [he] at he2
    exact Except.noConfusion he2

/-- Witness for C1: a trigger that raises an HTTP 500 API error. -/
theorem C1_witness :
    (WorkflowExecutor.execute envTriggerError none [] "ds" 10 600 none
      0).1.success = false ∧
    (WorkflowExecutor.execute envTriggerError none [] "ds" 10 600 none
      0).1.status = "error" ∧
    (WorkflowExecutor.execute envTriggerError none [] "ds" 10 600 none
      0).2 = [] ∧
    (∀ e, envTriggerError.triggerResult = .error e →
      ∃ s, (WorkflowExecutor.execute envTriggerError none [] "ds" 10 600 none
        0).1.error = some ("Trigger failed: " ++ s)) :=
  C1_trigger_failure_fast_fail envTriggerError none [] "ds" 10 600 none 0
    (Or.inl ⟨"HTTP 500: internal server error", rfl⟩)

/-- C2: for every input and every outcome path, `WorkflowExecutor.execute`
returns exactly one terminal result record (it is a total function into
one result), and that record has either `success=true` with data set, or
`success=false` with an error message set. -/
theorem C2_exactly_one_terminal_result (env : Env) (plat : Option String)
    (payload : List (List (String × PyData))) (did : String)
    (pi pt : Nat) (nf : Option (PyData → PyData)) (t0 : Nat) :
    ((WorkflowExecutor.execute env plat payload did pi pt nf t0).1.success
        = true ∧
     (WorkflowExecutor.execute env plat payload did pi pt nf t0).1.data.isSome
        = true) ∨
    ((WorkflowExecutor.execute env plat payload did pi pt nf t0).1.success
        = false ∧
     (WorkflowExecutor.execute env plat payload did pi pt nf
        t0).1.error.isSome = true) := by
  cases he : env.triggerResult with
  | error e =>
    rw [execute_trigger_error env plat payload did pi pt nf t0 e he]
    exact Or.inr ⟨rfl, rfl⟩
  | ok sid =>
    by_cases hs : sid = ""
    · rw [hs] at he
      rw [execute_no_snapshot env plat payload did pi pt nf t0 he]
      exact Or.inr ⟨rfl, rfl⟩
    · rw [execute_ok env plat payload did pi pt nf t0 sid he hs]
      obtain ⟨hsucc, _, herr, _, _, _, _, _, _, hdata, _⟩ :=
        poll_and_fetch_frame env sid pi pt t0 (t0 + env.triggerDur) plat nf
      rw [poll_until_ready_eq] at hsucc herr hdata
      have hinv := pollLoop_inv env plat t0 (t0 + env.triggerDur) pi
        (t0 + env.triggerDur + pt) (pt + 1) 0 (t0 + env.triggerDur)
        (le_refl _)
      rcases hinv.2.2.2 with ⟨h1, h2⟩ | ⟨h1, h2⟩
      · exact Or.inl ⟨by rw [hsucc, h1], by rw [hdata, h2]⟩
      · refine Or.inr ⟨by rw [hsucc, h1], ?_⟩
        rw [herr]
        exact h2

/-- C4: if `get_status` never reports a terminal state at any poll that
happens before `poll_timeout` seconds have elapsed since the snapshot id
was received, `execute` returns a normal result record (it is a total
function) with `status="timeout"` and `success=false`. -/
theorem C4_poll_timeout (env : Env) (plat : Option String)
    (payload : List (List (String × PyData))) (did : String)
    (pi pt : Nat) (nf : Option (PyData → PyData)) (t0 : Nat) (sid : String)
    (htr : env.triggerResult = .ok sid) (hsid : sid ≠ "")
    (hnt : ∀ d, d * pi < pt →
      env.statusAt d ≠ "ready" ∧ env.statusAt d ≠ "failed") :
    (WorkflowExecutor.execute env plat payload did pi pt nf t0).1.status
      = "timeout" ∧
    (WorkflowExecutor.execute env plat payload did pi pt nf t0).1.success
      = false := by
  rw [execute_ok env plat payload did pi pt nf t0 sid htr hsid]
  obtain ⟨hsucc, hstat, _, _, _, _, _, _, _, _, _⟩ :=
    poll_and_fetch_frame env sid pi pt t0 (t0 + env.triggerDur) plat nf
  rw [poll_until_ready_eq] at hsucc hstat
  have hto := pollLoop_timeout env plat t0 (t0 + env.triggerDur) pi
    (t0 + env.triggerDur + pt) (pt + 1) 0 (t0 + env.triggerDur) ?_
  · exact ⟨by rw [hstat, hto.1], by rw [hsucc, hto.2]⟩
  · intro d hd
    have : d * pi < pt := by omega
    have h := hnt d this
    rwa [Nat.zero_add]

/-- Witness for C4: every status call answers `running`, so the run times
out. -/
theorem C4_witness :
    (WorkflowExecutor.execute envAllRunning none [] "ds" 1 3 none
      0).1.status = "timeout" ∧
    (WorkflowExecutor.execute envAllRunning none [] "ds" 1 3 none
      0).1.success = false :=
  C4_poll_timeout envAllRunning none [] "ds" 1 3 none 0 "snap-1" rfl
    (by decide)
    (fun _ _ =>
      ⟨fun h => absurd (show ("running" : String) = "ready" from h)
        (by decide),
       fun h => absurd (show ("running" : String) = "failed" from h)
        (by decide)⟩)

/-- C5: if some status call of an execution observed the terminal
`failed` status, the workflow returned a failure result immediately after
that observation: the observation is the last polling call of the
execution's call trace (no further `get_status`), and no `fetch_result`
call occurs in the trace. -/
theorem C5_failed_short_circuits (env : Env) (plat : Option String)
    (payload : List (List (String × PyData))) (did : String)
    (pi pt : Nat) (nf : Option (PyData → PyData)) (t0 : Nat) (j : Nat)
    (hmem : Call.getStatus j ∈
      (WorkflowExecutor.execute env plat payload did pi pt nf t0).2)
    (hj : env.statusAt j = "failed") :
    (WorkflowExecutor.execute env plat payload did pi pt nf t0).1.success
      = false ∧
    Call.fetchResult ∉
      (WorkflowExecutor.execute env plat payload did pi pt nf t0).2 ∧
    ∃ pre, (WorkflowExecutor.execute env plat payload did pi pt nf t0).2
      = pre ++ [Call.getStatus j] := by
  cases he : env.triggerResult with
  | error e =>
    rw [execute_trigger_error env plat payload did pi pt nf t0 e he] at hmem
    simp at hmem
  | ok sid =>
    by_cases hs : sid = ""
    · rw [hs] at he
      rw [execute_no_snapshot env plat payload did pi pt nf t0 he] at hmem
      simp at hmem
    · rw [execute_ok env plat payload did pi pt nf t0 sid he hs] at hmem ⊢
      obtain ⟨hsucc, _, _, _, _, _, _, _, _, _, htrace⟩ :=
        poll_and_fetch_frame env sid pi pt t0 (t0 + env.triggerDur) plat nf
      rw [htrace] at hmem ⊢
      rw [poll_until_ready_eq] at hmem hsucc ⊢
      obtain ⟨h1, h2, h3⟩ := pollLoop_failed_stops env plat t0
        (t0 + env.triggerDur) pi (t0 + env.triggerDur + pt) (pt + 1) 0
        (t0 + env.triggerDur) j hmem hj
      exact ⟨by rw [hsucc, h1], h2, h3⟩

/-- Witness for C5: the first status call reports `failed`; the trace is
exactly that one call and the result is a failure. -/
theorem C5_witness :
    (WorkflowExecutor.execute envFailed none [] "ds" 1 5 none 0).1.success
      = false ∧
    Call.fetchResult ∉
      (WorkflowExecutor.execute envFailed none [] "ds" 1 5 none 0).2 ∧
    ∃ pre, (WorkflowExecutor.execute envFailed none [] "ds" 1 5 none 0).2
      = pre ++ [Call.getStatus 0] :=
  C5_failed_short_circuits envFailed none [] "ds" 1 5 none 0 0 (by decide)
    rfl

/-- C7: within one workflow execution, the timestamps recorded in the
result — `trigger_sent_at`, `snapshot_id_received_at`, `data_fetched_at`,
all instants of the single UTC clock of the model — are monotonically
non-decreasing in that order (timestamps the execution did not record are
absent). -/
theorem C7_timestamps_monotone (env : Env) (plat : Option String)
    (payload : List (List (String × PyData))) (did : String)
    (pi pt : Nat) (nf : Option (PyData → PyData)) (t0 : Nat) :
    (∀ s, (WorkflowExecutor.execute env plat payload did pi pt nf
        t0).1.snapshot_id_received_at = some s →
      (WorkflowExecutor.execute env plat payload did pi pt nf
        t0).1.trigger_sent_at ≤ s) ∧
    (∀ f, (WorkflowExecutor.execute env plat payload did pi pt nf
        t0).1.data_fetched_at = some f →
      (WorkflowExecutor.execute env plat payload did pi pt nf
        t0).1.trigger_sent_at ≤ f) ∧
    (∀ s f, (WorkflowExecutor.execute env plat payload did pi pt nf
        t0).1.snapshot_id_received_at = some s →
      (WorkflowExecutor.execute env plat payload did pi pt nf
        t0).1.data_fetched_at = some f → s ≤ f) := by
  cases he : env.triggerResult with
  | error e =>
    rw [execute_trigger_error env plat payload did pi pt nf t0 e he]
    refine ⟨?_, ?_, ?_⟩
    · intro s hs
      exact Option.noConfusion hs
    · intro f hf
      have hf2 : t0 + env.triggerDur = f := Option.some.inj hf
      show t0 ≤ f
      omega
    · intro s f hs _
      exact Option.noConfusion hs
  | ok sid =>
    by_cases hs : sid = ""
    · rw [hs] at he
      rw [execute_no_snapshot env plat payload did pi pt nf t0 he]
      refine ⟨?_, ?_, ?_⟩
      · intro s h
        exact Option.noConfusion h
      · intro f hf
        have hf2 : t0 + env.triggerDur = f := Option.some.inj hf
        show t0 ≤ f
        omega
      · intro s f h _
        exact Option.noConfusion h
    · rw [execute_ok env plat payload did pi pt nf t0 sid he hs]
      obtain ⟨_, _, _, _, _, _, hts, hsnap, hfetch, _, _⟩ :=
        poll_and_fetch_frame env sid pi pt t0 (t0 + env.triggerDur) plat nf
      rw [poll_until_ready_eq] at hts hsnap hfetch
      have hinv := pollLoop_inv env plat t0 (t0 + env.triggerDur) pi
        (t0 + env.triggerDur + pt) (pt + 1) 0 (t0 + env.triggerDur)
        (le_refl _)
      obtain ⟨hits, hisnap, ⟨fv, hif, hle⟩, _⟩ := hinv
      refine ⟨?_, ?_, ?_⟩
      · intro s hsx
        rw [hsnap, hisnap] at hsx
        have : t0 + env.triggerDur = s := Option.some.inj hsx
        rw [hts, hits]
        omega
      · intro f hfx
        rw [hfetch, hif] at hfx
        have : fv = f := Option.some.inj hfx
        rw [hts, hits]
        omega
      · intro s f hsx hfx
        rw [hsnap, hisnap] at hsx
        rw [hfetch, hif] at hfx
        have h1 : t0 + env.triggerDur = s := Option.some.inj hsx
        have h2 : fv = f := Option.some.inj hfx
        omega

/-- Witness for C7: an immediately-ready run with zero network durations;
all three timestamps are recorded and ordered. -/
theorem C7_witness :
    (WorkflowExecutor.execute envReadyOne none [] "ds" 1 5 none
      0).1.trigger_sent_at ≤ 0 ∧ (0 : Nat) ≤ 0 :=
  ⟨(C7_timestamps_monotone envReadyOne none [] "ds" 1 5 none 0).1 0 rfl,
   (C7_timestamps_monotone envReadyOne none [] "ds" 1 5 none 0).2.2 0 0 rfl
     rfl⟩

/-- C10: the normalization step of the workflow modifies only the `data`
field of the poller's result: for every poller outcome and every supplied
normalize function, `success`, `status`, `error`, `url`, `platform`,
`method` and all timestamps are identical before and after the
normalization step of `_poll_and_fetch`. -/
theorem C10_normalization_touches_only_data (env : Env) (sid : String)
    (pi pt ts snap : Nat) (plat : Option String) (f : PyData → PyData) :
    (WorkflowExecutor.poll_and_fetch env sid pi pt ts snap plat
        (some f)).1.success
      = (poll_until_ready env sid pi pt ts snap plat).1.success ∧
    (WorkflowExecutor.poll_and_fetch env sid pi pt ts snap plat
        (some f)).1.status
      = (poll_until_ready env sid pi pt ts snap plat).1.status ∧
    (WorkflowExecutor.poll_and_fetch env sid pi pt ts snap plat
        (some f)).1.error
      = (poll_until_ready env sid pi pt ts snap plat).1.error ∧
    (WorkflowExecutor.poll_and_fetch env sid pi pt ts snap plat
        (some f)).1.url
      = (poll_until_ready env sid pi pt ts snap plat).1.url ∧
    (WorkflowExecutor.poll_and_fetch env sid pi pt ts snap plat
        (some f)).1.platform
      = (poll_until_ready env sid pi pt ts snap plat).1.platform ∧
    (WorkflowExecutor.poll_and_fetch env sid pi pt ts snap plat
        (some f)).1.method
      = (poll_until_ready env sid pi pt ts snap plat).1.method ∧
    (WorkflowExecutor.poll_and_fetch env sid pi pt ts snap plat
        (some f)).1.trigger_sent_at
      = (poll_until_ready env sid pi pt ts snap plat).1.trigger_sent_at ∧
    (WorkflowExecutor.poll_and_fetch env sid pi pt ts snap plat
        (some f)).1.snapshot_id_received_at
      = (poll_until_ready env sid pi pt ts snap
          plat).1.snapshot_id_received_at ∧
    (WorkflowExecutor.poll_and_fetch env sid pi pt ts snap plat
        (some f)).1.data_fetched_at
      = (poll_until_ready env sid pi pt ts snap plat).1.data_fetched_at := by
  obtain ⟨h1, h2, h3, h4, h5, h6, h7, h8, h9, _, _⟩ :=
    poll_and_fetch_frame env sid pi pt ts snap plat (some f)
  exact ⟨h1, h2, h3, h4, h5, h6, h7, h8, h9⟩

/-- Counterexample to C6 as stated: a successful execution whose fetched
data is the empty list.  The supplied normalize function maps the empty
list to a non-empty value, yet the returned data is the raw empty list —
normalization was skipped because the data is falsy
(`if result.success and result.data and normalize_func` in
src/src/brightdata/scrapers/workflow.py, line 155). -/
theorem C6_counterexample :
    (WorkflowExecutor.execute envEmptyData none [] "ds" 1 10
      (some (fun _ => PyData.pstr "normalized")) 0).1.success = true ∧
    (WorkflowExecutor.execute envEmptyData none [] "ds" 1 10
      (some (fun _ => PyData.pstr "normalized")) 0).1.data
      = some (PyData.plist []) ∧
    some ((fun _ => PyData.pstr "normalized") (PyData.plist []))
      ≠ some (PyData.plist []) := by
  refine ⟨rfl, rfl, ?_⟩
  intro h
  injection h with h2
  exact PyData.noConfusion h2

/-- C6 (amended): for every execution whose poll step succeeded and every
supplied normalize function, if the fetched raw payload is truthy
(non-empty under Python truthiness) the returned data is the normalized
payload, and if the fetched payload is falsy it is returned
unnormalized. -/
theorem C6_normalize_applied (env : Env) (sid : String) (pi pt ts snap : Nat)
    (plat : Option String) (f : PyData → PyData) (dta : PyData)
    (hf : env.fetchResult = .ok dta)
    (hs : (poll_until_ready env sid pi pt ts snap plat).1.success = true) :
    (pyTruthy dta = true →
      (WorkflowExecutor.poll_and_fetch env sid pi pt ts snap plat
        (some f)).1.data = some (f dta)) ∧
    (pyTruthy dta = false →
      (WorkflowExecutor.poll_and_fetch env sid pi pt ts snap plat
        (some f)).1.data = some dta) :=
  ⟨fun ht => poll_and_fetch_normalizes env sid pi pt ts snap plat f dta hf
     hs ht,
   fun ht => poll_and_fetch_skips_falsy env sid pi pt ts snap plat f dta hf
     hs ht⟩

/-- Witness for the amended C6: a one-element fetched list is normalized
by the supplied function (here, wrapping in a further list). -/
theorem C6_witness :
    (WorkflowExecutor.poll_and_fetch envReadyOne "snap-1" 1 10 0 0 none
      (some (fun d => PyData.plist [d]))).1.data
      = some (PyData.plist
          [PyData.plist [PyData.pdict [("title", PyData.pstr "x")]]]) :=
  (C6_normalize_applied envReadyOne "snap-1" 1 10 0 0 none
    (fun d => PyData.plist [d])
    (PyData.plist [PyData.pdict [("title", PyData.pstr "x")]]) rfl rfl).1
    rfl

/-- Corollary of the success characterization when the fetch outcome is
known to succeed. -/
theorem pollLoop_reaches_ready_ok (env : Env) (plat : Option String)
    (ts snap pi dl : Nat) (d fuel k now : Nat) (dta : PyData)
    (hf : env.fetchResult = .ok dta) (hfuel : d < fuel)
    (htime : now + d * pi < dl)
    (hready : env.statusAt (k + d) = "ready")
    (hbef : ∀ e, e < d → env.statusAt (k + e) ≠ "ready" ∧
      env.statusAt (k + e) ≠ "failed") :
    (pollLoop env plat ts snap pi dl fuel k now).1 =
      readyResult plat ts snap dta (now + d * pi + env.fetchDur) := by
  rw [pollLoop_reaches_ready env plat ts snap pi dl d fuel k now hfuel htime
    hready hbef, hf]

/-- On the success path with the base scraper's identity normalization,
`execute` succeeds and its data is exactly the fetched payload. -/
theorem execute_ready_data (env : Env) (plat : Option String)
    (payload : List (List (String × PyData))) (did : String)
    (pi pt t0 : Nat) (sid : String) (d : Nat) (dta : PyData)
    (htr : env.triggerResult = .ok sid) (hsid : sid ≠ "") (hpi : 1 ≤ pi)
    (hready : env.statusAt d = "ready")
    (hbef : ∀ e, e < d → env.statusAt e ≠ "ready" ∧
      env.statusAt e ≠ "failed")
    (htime : d * pi < pt)
    (hf : env.fetchResult = .ok dta) :
    (WorkflowExecutor.execute env plat payload did pi pt
      (some BaseWebScraper.normalize_result) t0).1.data = some dta ∧
    (WorkflowExecutor.execute env plat payload did pi pt
      (some BaseWebScraper.normalize_result) t0).1.success = true := by
  rw [execute_ok env plat payload did pi pt
    (some BaseWebScraper.normalize_result) t0 sid htr hsid]
  have hdle : d ≤ d * pi := Nat.le_mul_of_pos_right d hpi
  have hfuel : d < pt + 1 := by omega
  have htime2 : t0 + env.triggerDur + d * pi < t0 + env.triggerDur + pt := by
    omega
  have hready2 : env.statusAt (0 + d) = "ready" := by rwa [Nat.zero_add]
  have hbef2 : ∀ e, e < d → env.statusAt (0 + e) ≠ "ready" ∧
      env.statusAt (0 + e) ≠ "failed" := by
    intro e he
    rw [Nat.zero_add]
    exact hbef e he
  have hbase := pollLoop_reaches_ready_ok env plat t0 (t0 + env.triggerDur)
    pi (t0 + env.triggerDur + pt) d (pt + 1) 0 (t0 + env.triggerDur) dta hf
    hfuel htime2 hready2 hbef2
  have hsucc : (poll_until_ready env sid pi pt t0 (t0 + env.triggerDur)
      plat).1.success = true := by
    rw [poll_until_ready_eq, hbase]
    rfl
  constructor
  · by_cases htruthy : pyTruthy dta = true
    · rw [poll_and_fetch_normalizes env sid pi pt t0 (t0 + env.triggerDur)
        plat BaseWebScraper.normalize_result dta hf hsucc htruthy]
      rfl
    · have hfalse : pyTruthy dta = false := by
        cases hpy : pyTruthy dta with
        | false => rfl
        | true => exact absurd hpy htruthy
      exact poll_and_fetch_skips_falsy env sid pi pt t0
        (t0 + env.triggerDur) plat BaseWebScraper.normalize_result dta hf
        hsucc hfalse
  · obtain ⟨hsfr, _, _, _, _, _, _, _, _, _, _⟩ :=
      poll_and_fetch_frame env sid pi pt t0 (t0 + env.triggerDur) plat
        (some BaseWebScraper.normalize_result)
    rw [hsfr]
    exact hsucc

/-- C3: with the base scraper's identity normalization, for every
single-URL call to `scrape_async` (input one string) whose successful
workflow fetched a one-element list, the returned data is the unwrapped
sole element and the result's url equals the input URL; for every
list-of-URLs input the data keeps its fetched list shape. -/
theorem C3_single_url_unwrap :
    (∀ (did pname : String) (minT : Nat) (validUrl : String → Bool)
       (env : Env) (u : String) (pi : Nat) (pt : Option Nat) (t0 : Nat)
       (d : Nat) (x : PyData) (sid : String),
       validUrl u = true →
       env.triggerResult = .ok sid → sid ≠ "" → 1 ≤ pi →
       env.statusAt d = "ready" →
       (∀ e, e < d → env.statusAt e ≠ "ready" ∧
         env.statusAt e ≠ "failed") →
       d * pi < effectiveTimeout pt minT →
       env.fetchResult = .ok (PyData.plist [x]) →
       ∃ r tr, BaseWebScraper.scrape_async
           ⟨did, pname, minT, BaseWebScraper.normalize_result⟩ validUrl env
           (Urls.single u) pi pt t0 = .ok (r, tr) ∧
         r.data = some x ∧ r.url = u) ∧
    (∀ (did pname : String) (minT : Nat) (validUrl : String → Bool)
       (env : Env) (ls : List String) (pi : Nat) (pt : Option Nat) (t0 : Nat)
       (d : Nat) (l : List PyData) (sid : String),
       ls.all validUrl = true →
       env.triggerResult = .ok sid → sid ≠ "" → 1 ≤ pi →
       env.statusAt d = "ready" →
       (∀ e, e < d → env.statusAt e ≠ "ready" ∧
         env.statusAt e ≠ "failed") →
       d * pi < effectiveTimeout pt minT →
       env.fetchResult = .ok (PyData.plist l) →
       ∃ r tr, BaseWebScraper.scrape_async
           ⟨did, pname, minT, BaseWebScraper.normalize_result⟩ validUrl env
           (Urls.list ls) pi pt t0 = .ok (r, tr) ∧
         r.data = some (PyData.plist l)) := by
  constructor
  · intro did pname minT validUrl env u pi pt t0 d x sid hvalid htr hsid hpi
      hready hbef htime hf
    have hdata := (execute_ready_data env
      (if pname = "" then none else some pname)
      (BaseWebScraper.build_scrape_payload [u]) did pi
      (effectiveTimeout pt minT) t0 sid d (PyData.plist [x]) htr hsid hpi
      hready hbef htime hf).1
    unfold BaseWebScraper.scrape_async
    dsimp only
    have hall : ([u].all validUrl) = true := by simp [hvalid]
    rw [if_pos hall]
    rw [hdata]
    exact ⟨_, _, rfl, rfl, rfl⟩
  · intro did pname minT validUrl env ls pi pt t0 d l sid hvalid htr hsid hpi
      hready hbef htime hf
    have hdata := (execute_ready_data env
      (if pname = "" then none else some pname)
      (BaseWebScraper.build_scrape_payload ls) did pi
      (effectiveTimeout pt minT) t0 sid d (PyData.plist l) htr hsid hpi
      hready hbef htime hf).1
    unfold BaseWebScraper.scrape_async
    dsimp only
    rw [if_pos hvalid]
    exact ⟨_, _, rfl, hdata⟩

/-- Witness for C3: an immediately-ready run fetching one record for a
single-URL call (unwrapped), and one fetching two records for a
two-URL call (list shape kept). -/
theorem C3_witness :
    (∃ r tr, BaseWebScraper.scrape_async
        ⟨"ds", "", 180, BaseWebScraper.normalize_result⟩ (fun _ => true)
        envReadyOne (Urls.single "https://example.com/item") 1 (some 10) 0
        = .ok (r, tr) ∧
      r.data = some (PyData.pdict [("title", PyData.pstr "x")]) ∧
      r.url = "https://example.com/item") ∧
    (∃ r tr, BaseWebScraper.scrape_async
        ⟨"ds", "", 180, BaseWebScraper.normalize_result⟩ (fun _ => true)
        envReadyTwo (Urls.list ["https://a.example/1", "https://b.example/2"])
        1 (some 10) 0 = .ok (r, tr) ∧
      r.data = some (PyData.plist [PyData.pstr "a", PyData.pstr "b"])) :=
  ⟨C3_single_url_unwrap.1 "ds" "" 180 (fun _ => true) envReadyOne
     "https://example.com/item" 1 (some 10) 0 0
     (PyData.pdict [("title", PyData.pstr "x")]) "snap-1" rfl rfl
     (by decide) (by decide) rfl (fun e he => absurd he (Nat.not_lt_zero e))
     (by decide) rfl,
   C3_single_url_unwrap.2 "ds" "" 180 (fun _ => true) envReadyTwo
     ["https://a.example/1", "https://b.example/2"] 1 (some 10) 0 0
     [PyData.pstr "a", PyData.pstr "b"] "snap-1" rfl rfl
     (by decide) (by decide) rfl (fun e he => absurd he (Nat.not_lt_zero e))
     (by decide) rfl⟩

/-- C8: `BrightDataClient.test_connection` returns `False` (rather than
raising) when the underlying zone-listing call fails with an
authentication error or an API error, and returns `True` when the
zone-listing call succeeds. -/
theorem C8_test_connection_no_raise (m : String) (zs : List PyData) :
    BrightDataClient.test_connection (ZonesOutcome.exc ConnExc.authError)
      = false ∧
    BrightDataClient.test_connection (ZonesOutcome.exc (ConnExc.apiError m))
      = false ∧
    BrightDataClient.test_connection (ZonesOutcome.ok zs) = true :=
  ⟨rfl, rfl, rfl⟩

/-- C9: for every query and parameter values, `GoogleSearch.query`,
`LinkedInSearch.jobs`, `LinkedInSearch.profiles` and
`CrawlerService.discover` return a result with `success=true` and an
empty data/pages sequence, issuing zero HTTP requests. -/
theorem C9_stub_entry_points (q country language domain : String)
    (num_results max_depth max_pages : Nat) (location : Option String)
    (fp ep : Option String) (now : Nat) :
    ((GoogleSearch.query q country language num_results now).1.success
        = true ∧
     (GoogleSearch.query q country language num_results now).1.data = [] ∧
     (GoogleSearch.query q country language num_results now).2 = 0) ∧
    ((LinkedInSearch.jobs q location now).1.success = true ∧
     (LinkedInSearch.jobs q location now).1.data = [] ∧
     (LinkedInSearch.jobs q location now).2 = 0) ∧
    ((LinkedInSearch.profiles q now).1.success = true ∧
     (LinkedInSearch.profiles q now).1.data = [] ∧
     (LinkedInSearch.profiles q now).2 = 0) ∧
    ((CrawlerService.discover domain max_depth max_pages fp ep
        now).1.success = true ∧
     (CrawlerService.discover domain max_depth max_pages fp ep now).1.pages
        = [] ∧
     (CrawlerService.discover domain max_depth max_pages fp ep
        now).1.total_pages = 0 ∧
     (CrawlerService.discover domain max_depth max_pages fp ep now).2
        = 0) :=
  ⟨⟨rfl, rfl, rfl⟩, ⟨rfl, rfl, rfl⟩, ⟨rfl, rfl, rfl⟩, ⟨rfl, rfl, rfl, rfl⟩⟩
